import Mathlib

/-!
Verification development for huectl-rs, a command-line client for a
Philips Hue bridge.  The relevant source files are `src/arg/mod.rs`
(`discover`, `register`), `src/arg/light.rs` (the light subcommands and
the `Set` modifier builders) and `src/command/config.rs` (`config set` /
`config get`).

The bridge-client library (`huelib`) is an external collaborator: its
calls, together with printing, environment mutation and process exit,
are embedded as an explicit trace of `Event`s.  Each command function is
translated into a Lean function from its parsed argument struct and the
bridge's responses (passed in as `Except` values) to the list of events
the invocation performs, in order; a fatal exit truncates the trace.
-/

/-- IP addresses are opaque to this program (parsed by the CLI layer and
passed through); embedded as strings. -/
abbrev IpAddr := String

/-- Errors returned by the external bridge client are opaque to this
program and only ever formatted into messages; embedded as strings. -/
abbrev HuelibError := String

/-- A response line returned by the bridge for one changed field. -/
abbrev Response := String

/-- An `f32` value: the program performs no arithmetic on the color
coordinates, it only passes them through, so a coordinate is embedded as
its raw bit pattern. -/
structure F32 where
  bits : Nat
deriving DecidableEq, Repr

/-- huelib `Adjuster`: whether a percentage-style value is an absolute
override or a signed delta (spec section 3, "relative/absolute flag"). -/
inductive Adjuster where
  | override
  | increment
  | decrement
deriving DecidableEq, Repr

/-- huelib `Color`: a color value, kept symbolic by the constructor it
was derived from.  `color_hex` options are parsed into a `Color` before
reaching the builder, so a hex color arrives as an already-built value. -/
inductive Color where
  | fromSpaceCoordinates (x y : F32)
  | fromRgb (r g b : Nat)
  | fromHex (h : Nat)
deriving DecidableEq, Repr

/-- Alert effect values (fixed enumerated set, spec section 4.1). -/
inductive Alert where
  | select
  | lselect
  | noAlert
deriving DecidableEq, Repr

/-- Dynamic effect values (fixed enumerated set, spec section 4.1). -/
inductive Effect where
  | colorloop
  | noEffect
deriving DecidableEq, Repr

/-- `value::Brightness` and friends: a pair of an adjuster and a
magnitude, as consumed by `modifier.brightness(v.0, v.1)` etc. -/
abbrev AdjustedValue := Adjuster × Nat

/-- huelib `light::StateModifier`: a sparse set of optional field
assignments (spec section 3, "Modifier").  A fresh modifier has every
field absent. -/
structure StateModifier where
  on_value : Option Bool := none
  brightness : Option AdjustedValue := none
  hue : Option AdjustedValue := none
  saturation : Option AdjustedValue := none
  color : Option Color := none
  color_temperature : Option AdjustedValue := none
  alert : Option Alert := none
  effect : Option Effect := none
  transition_time : Option Nat := none
deriving DecidableEq, Repr

/-- `StateModifier::new()`: all fields absent. -/
def StateModifier.new : StateModifier := {}

/-- Builder method `StateModifier::on`. -/
def StateModifier.set_on (m : StateModifier) (v : Bool) : StateModifier :=
  { m with on_value := some v }

/-- Builder method `StateModifier::brightness`. -/
def StateModifier.set_brightness (m : StateModifier) (a : Adjuster) (v : Nat) : StateModifier :=
  { m with brightness := some (a, v) }

/-- Builder method `StateModifier::hue`. -/
def StateModifier.set_hue (m : StateModifier) (a : Adjuster) (v : Nat) : StateModifier :=
  { m with hue := some (a, v) }

/-- Builder method `StateModifier::saturation`. -/
def StateModifier.set_saturation (m : StateModifier) (a : Adjuster) (v : Nat) : StateModifier :=
  { m with saturation := some (a, v) }

/-- Builder method `StateModifier::color`. -/
def StateModifier.set_color (m : StateModifier) (c : Color) : StateModifier :=
  { m with color := some c }

/-- Builder method `StateModifier::color_temperature`. -/
def StateModifier.set_color_temperature (m : StateModifier) (a : Adjuster) (v : Nat) : StateModifier :=
  { m with color_temperature := some (a, v) }

/-- Builder method `StateModifier::alert`. -/
def StateModifier.set_alert (m : StateModifier) (a : Alert) : StateModifier :=
  { m with alert := some a }

/-- Builder method `StateModifier::effect`. -/
def StateModifier.set_effect (m : StateModifier) (e : Effect) : StateModifier :=
  { m with effect := some e }

/-- Builder method `StateModifier::transition_time`. -/
def StateModifier.set_transition_time (m : StateModifier) (v : Nat) : StateModifier :=
  { m with transition_time := some v }

/-- Modelled from the spec: huelib's `StateModifier::is_empty` is not
under `src/`; spec sections 3 and 4.2 say the modifier is a sparse set
of optional fields with an emptiness check, so a modifier is empty
exactly when every field is absent. -/
def StateModifier.is_empty (m : StateModifier) : Bool :=
  m.on_value.isNone && m.brightness.isNone && m.hue.isNone && m.saturation.isNone &&
  m.color.isNone && m.color_temperature.isNone && m.alert.isNone &&
  m.effect.isNone && m.transition_time.isNone

/-- huelib `light::AttributeModifier`: only the light's name can be
modified. -/
structure AttributeModifier where
  name : Option String := none
deriving DecidableEq, Repr

/-- `AttributeModifier::new()`: all fields absent. -/
def AttributeModifier.new : AttributeModifier := {}

/-- Builder method `AttributeModifier::name`. -/
def AttributeModifier.set_name (m : AttributeModifier) (v : String) : AttributeModifier :=
  { m with name := some v }

/-- Modelled from the spec: huelib's `AttributeModifier::is_empty`, the
emptiness check of spec section 4.2, true exactly when every field is
absent. -/
def AttributeModifier.is_empty (m : AttributeModifier) : Bool :=
  m.name.isNone

namespace light

/-- `light::Set` (src/arg/light.rs, lines 18-61): the parsed
`light set` command.  The `color_space_coordinates` flag takes exactly
two values and `color_rgb` exactly three (structopt `min_values` =
`max_values`), so they are embedded as a pair and a triple. -/
structure Set where
  id : String
  on_flag : Bool
  off : Bool
  brightness : Option AdjustedValue
  hue : Option AdjustedValue
  saturation : Option AdjustedValue
  color_temperature : Option AdjustedValue
  color_space_coordinates : Option (F32 × F32)
  color_rgb : Option (Nat × Nat × Nat)
  color_hex : Option Color
  alert : Option Alert
  effect : Option Effect
  transition_time : Option Nat
  name : Option String
deriving DecidableEq, Repr

/-- The `if let Some(v) = &self.brightness` step of
`Set::to_state_modifier` (src/arg/light.rs, lines 71-73). -/
def apply_brightness (modifier : StateModifier) (o : Option AdjustedValue) : StateModifier :=
  match o with
  | some v => modifier.set_brightness v.1 v.2
  | none => modifier

/-- The `if let Some(v) = &self.hue` step (src/arg/light.rs, lines 74-76). -/
def apply_hue (modifier : StateModifier) (o : Option AdjustedValue) : StateModifier :=
  match o with
  | some v => modifier.set_hue v.1 v.2
  | none => modifier

/-- The `if let Some(v) = &self.saturation` step (src/arg/light.rs,
lines 77-79). -/
def apply_saturation (modifier : StateModifier) (o : Option AdjustedValue) : StateModifier :=
  match o with
  | some v => modifier.set_saturation v.1 v.2
  | none => modifier

/-- The `if let Some(v) = &self.color_space_coordinates` step
(src/arg/light.rs, lines 80-82): `Color::from_space_coordinates(v[0], v[1])`. -/
def apply_color_space_coordinates (modifier : StateModifier) (o : Option (F32 × F32)) :
    StateModifier :=
  match o with
  | some v => modifier.set_color (Color.fromSpaceCoordinates v.1 v.2)
  | none => modifier

/-- The `if let Some(v) = &self.color_rgb` step (src/arg/light.rs,
lines 83-85): `Color::from_rgb(v[0], v[1], v[2])`. -/
def apply_color_rgb (modifier : StateModifier) (o : Option (Nat × Nat × Nat)) : StateModifier :=
  match o with
  | some v => modifier.set_color (Color.fromRgb v.1 v.2.1 v.2.2)
  | none => modifier

/-- The `if let Some(v) = &self.color_hex` step (src/arg/light.rs,
lines 86-88): the hex flag already carries a parsed `Color`. -/
def apply_color_hex (modifier : StateModifier) (o : Option Color) : StateModifier :=
  match o with
  | some v => modifier.set_color v
  | none => modifier

/-- The `if let Some(v) = &self.color_temperature` step
(src/arg/light.rs, lines 89-91). -/
def apply_color_temperature (modifier : StateModifier) (o : Option AdjustedValue) :
    StateModifier :=
  match o with
  | some v => modifier.set_color_temperature v.1 v.2
  | none => modifier

/-- The `if let Some(v) = &self.alert` step (src/arg/light.rs,
lines 92-94). -/
def apply_alert (modifier : StateModifier) (o : Option Alert) : StateModifier :=
  match o with
  | some v => modifier.set_alert v
  | none => modifier

/-- The `if let Some(v) = &self.effect` step (src/arg/light.rs,
lines 95-97). -/
def apply_effect (modifier : StateModifier) (o : Option Effect) : StateModifier :=
  match o with
  | some v => modifier.set_effect v
  | none => modifier

/-- The `if let Some(v) = self.transition_time` step (src/arg/light.rs,
lines 98-100). -/
def apply_transition_time (modifier : StateModifier) (o : Option Nat) : StateModifier :=
  match o with
  | some v => modifier.set_transition_time v
  | none => modifier

/-- `Set::to_state_modifier` (src/arg/light.rs, lines 64-102):
accumulates only the supplied flags into a fresh `StateModifier`.  Each
`let` re-binding is one step of the source's sequence of if / if-let
statements, in the source's order. -/
def Set.to_state_modifier (s : Set) : StateModifier :=
  let modifier := StateModifier.new
  let modifier := if s.on_flag then modifier.set_on true
    else if s.off then modifier.set_on false
    else modifier
  let modifier := apply_brightness modifier s.brightness
  let modifier := apply_hue modifier s.hue
  let modifier := apply_saturation modifier s.saturation
  let modifier := apply_color_space_coordinates modifier s.color_space_coordinates
  let modifier := apply_color_rgb modifier s.color_rgb
  let modifier := apply_color_hex modifier s.color_hex
  let modifier := apply_color_temperature modifier s.color_temperature
  let modifier := apply_alert modifier s.alert
  let modifier := apply_effect modifier s.effect
  let modifier := apply_transition_time modifier s.transition_time
  modifier

/-- `Set::to_attribute_modifier` (src/arg/light.rs, lines 104-110). -/
def Set.to_attribute_modifier (s : Set) : AttributeModifier :=
  let modifier := AttributeModifier.new
  let modifier := match s.name with
    | some v => modifier.set_name v
    | none => modifier
  modifier

end light

/-- A light resource as returned by the bridge; its JSON schema belongs
to the external library, so the data is opaque here. -/
abbrev Light := String

/-- A scan result (`get_new_lights`) as returned by the bridge; opaque. -/
abbrev Scan := String

/-- The bridge configuration resource (`get_config`); opaque. -/
abbrev Config := String

/-- `output::Light`: the display form a fetched light is converted to
before serialization (`OutputLight::from(v)` in src/arg/light.rs). -/
structure OutputLight where
  light : Light
deriving DecidableEq, Repr

/-- Conversion `OutputLight::from`. -/
def OutputLight.ofLight (l : Light) : OutputLight := ⟨l⟩

/-- `output::Scan`: the display form of a scan result. -/
structure OutputScan where
  scan : Scan
deriving DecidableEq, Repr

/-- Conversion `OutputScan::from`. -/
def OutputScan.ofScan (s : Scan) : OutputScan := ⟨s⟩

/-- One observable step of a command invocation, in order: a call into
the external bridge client, a line printed to standard output, an
environment-variable mutation, or one of the two error helpers.

`printPrettyJson...` embeds `println!("{}", serde_json::to_string_pretty(..))`:
the named value is serialized to pretty-printed JSON and written to
standard output.

`printError` is modelled from the spec: `util::print_err` is not under
`src/`; spec section 7 calls it the non-fatal helper that prints the
context and the error without terminating the process.

`exitFatal` is modelled from the spec: the `exit!` helper is not under
`src/`; spec sections 4.3 and 6 say it prints one context line plus the
underlying error detail to standard error and terminates the process
with a non-zero exit status, so it is always the last event of a trace. -/
inductive Event where
  | callDiscover
  | callRegisterUser (ip : IpAddr) (clientName : String) (generateClientkey : Bool)
  | callSetConfig
  | callGetConfig
  | callSetLightState (id : String) (m : StateModifier)
  | callSetLightAttribute (id : String) (m : AttributeModifier)
  | callGetLight (id : String)
  | callGetAllLights
  | callGetNewLights
  | callSearchNewLights
  | callDeleteLight (id : String)
  | printLine (s : String)
  | printPrettyJsonLight (v : OutputLight)
  | printPrettyJsonLights (v : List OutputLight)
  | printPrettyJsonScan (v : OutputScan)
  | printPrettyJsonConfig (v : Config)
  | printConfigDebug (v : Config)
  | setEnvVar (name value : String)
  | printError (context : String) (err : HuelibError)
  | exitFatal (context : String) (err : Option HuelibError)
deriving DecidableEq, Repr

/-- True for the events that call into the external bridge client over
the network. -/
def Event.isNetworkCall : Event → Bool
  | .callDiscover => true
  | .callRegisterUser _ _ _ => true
  | .callSetConfig => true
  | .callGetConfig => true
  | .callSetLightState _ _ => true
  | .callSetLightAttribute _ _ => true
  | .callGetLight _ => true
  | .callGetAllLights => true
  | .callGetNewLights => true
  | .callSearchNewLights => true
  | .callDeleteLight _ => true
  | _ => false

/-- True for a `set_light_state` call. -/
def Event.isSetLightStateCall : Event → Bool
  | .callSetLightState _ _ => true
  | _ => false

/-- True for a `set_light_attribute` call. -/
def Event.isSetLightAttributeCall : Event → Bool
  | .callSetLightAttribute _ _ => true
  | _ => false

/-- True for a `register_user` call. -/
def Event.isRegisterCall : Event → Bool
  | .callRegisterUser _ _ _ => true
  | _ => false

/-- True for a `register_user` call targeting the given IP address. -/
def Event.isRegisterCallTo (ip : IpAddr) : Event → Bool
  | .callRegisterUser i _ _ => i = ip
  | _ => false

/-- True for a `get_new_lights` call. -/
def Event.isGetNewLightsCall : Event → Bool
  | .callGetNewLights => true
  | _ => false

/-- True for a `search_new_lights` call. -/
def Event.isSearchNewLightsCall : Event → Bool
  | .callSearchNewLights => true
  | _ => false

/-- True for a fatal-exit event. -/
def Event.isExitFatal : Event → Bool
  | .exitFatal _ _ => true
  | _ => false

/-- True for a non-fatal error print. -/
def Event.isPrintError : Event → Bool
  | .printError _ _ => true
  | _ => false

/-- True for an environment-variable mutation. -/
def Event.isSetEnvVar : Event → Bool
  | .setEnvVar _ _ => true
  | _ => false

/-- True for a line printed to standard output. -/
def Event.isPrintLine : Event → Bool
  | .printLine _ => true
  | _ => false

namespace light

/-- `light::set` after the state-modifier step (the remainder of
src/arg/light.rs lines 123-134): build the attribute modifier, send it
when non-empty, then print every accumulated response line. -/
def set_cont (arg : Set) (responses : List Response)
    (attrResp : Except HuelibError (List Response)) : List Event :=
  let attribute_modifier := arg.to_attribute_modifier
  if !attribute_modifier.is_empty then
    Event.callSetLightAttribute arg.id attribute_modifier ::
    match attrResp with
    | .ok v => (responses ++ v).map Event.printLine
    | .error e => [Event.exitFatal "Error occured while modifying attributes of the light" (some e)]
  else
    responses.map Event.printLine

/-- `light::set` (src/arg/light.rs, lines 113-135).  `stateResp` and
`attrResp` are the bridge's answers to `set_light_state` and
`set_light_attribute`; each is consulted only if the corresponding
modifier is non-empty and its call is therefore made. -/
def set (arg : Set) (stateResp attrResp : Except HuelibError (List Response)) : List Event :=
  let state_modifier := arg.to_state_modifier
  if !state_modifier.is_empty then
    Event.callSetLightState arg.id state_modifier ::
    match stateResp with
    | .ok v => set_cont arg v attrResp
    | .error e => [Event.exitFatal "Error occured while modifying the state of the light" (some e)]
  else
    set_cont arg [] attrResp

/-- `light::Get` (src/arg/light.rs, lines 137-141). -/
structure Get where
  id : Option String
deriving DecidableEq, Repr

/-- `light::get` (src/arg/light.rs, lines 143-161): fetch one light when
an id is given, otherwise all lights, and print the result as
pretty-printed JSON. -/
def get (arg : Get) (oneResp : Except HuelibError Light)
    (allResp : Except HuelibError (List Light)) : List Event :=
  match arg.id with
  | some v =>
    Event.callGetLight v ::
    match oneResp with
    | .ok l => [Event.printPrettyJsonLight (OutputLight.ofLight l)]
    | .error e => [Event.exitFatal "Failed to get light" (some e)]
  | none =>
    Event.callGetAllLights ::
    match allResp with
    | .ok v => [Event.printPrettyJsonLights (v.map OutputLight.ofLight)]
    | .error e => [Event.exitFatal "Failed to get lights" (some e)]

/-- `light::Search` (src/arg/light.rs, lines 163-168). -/
structure Search where
  get : Bool
deriving DecidableEq, Repr

/-- `light::search` (src/arg/light.rs, lines 170-186): with `--get`
fetch the lights found by the last scan, otherwise trigger a new scan. -/
def search (arg : Search) (getResp : Except HuelibError Scan)
    (searchResp : Except HuelibError Unit) : List Event :=
  if arg.get then
    Event.callGetNewLights ::
    match getResp with
    | .ok v => [Event.printPrettyJsonScan (OutputScan.ofScan v)]
    | .error e => [Event.exitFatal "Failed to get new lights" (some e)]
  else
    Event.callSearchNewLights ::
    match searchResp with
    | .ok _ => [Event.printLine "Searching for new lights..."]
    | .error e => [Event.exitFatal "Failed to search for new lights" (some e)]

/-- `light::Delete` (src/arg/light.rs, lines 188-192). -/
structure Delete where
  id : String
deriving DecidableEq, Repr

/-- `light::delete` (src/arg/light.rs, lines 194-199). -/
def delete (arg : Delete) (resp : Except HuelibError Unit) : List Event :=
  Event.callDeleteLight arg.id ::
  match resp with
  | .ok _ => [Event.printLine ("Deleted light " ++ arg.id)]
  | .error e => [Event.exitFatal "Failed to delete light" (some e)]

end light

namespace config

/-- `config::set` (src/command/config.rs, lines 15-23): send the config
modifier; on a bridge error, report it through the non-fatal
`util::print_err` helper; otherwise print each response line. -/
def set (modResp : Except HuelibError (List Response)) : List Event :=
  Event.callSetConfig ::
  match modResp with
  | .ok v => v.map Event.printLine
  | .error e => [Event.printError "Failed to set config" e]

/-- `config::get` (src/command/config.rs, lines 25-40): fetch the bridge
configuration and print it as pretty JSON (with `--json`) or in the
debug display form; bridge errors go through the non-fatal
`util::print_err` helper.  The source's serialize-error arm also uses
`print_err`; the embedded serializer is total, so that arm has no
counterpart here. -/
def get (json : Bool) (configResp : Except HuelibError Config) : List Event :=
  Event.callGetConfig ::
  match configResp with
  | .ok v =>
    if json then [Event.printPrettyJsonConfig v]
    else [Event.printConfigDebug v]
  | .error e => [Event.printError "Failed to get scene" e]

end config

namespace arg

/-- `discover` (src/arg/mod.rs, lines 99-107): query the discovery
service and print one line per discovered bridge IP address; a service
error is fatal. -/
def discover (resp : Except HuelibError (List IpAddr)) : List Event :=
  Event.callDiscover ::
  match resp with
  | .ok ip_addresses => ip_addresses.map (fun i => Event.printLine i)
  | .error e => [Event.exitFatal "Failed to discover bridges" (some e)]

/-- `Register` (src/arg/mod.rs, lines 109-117). -/
structure Register where
  ip_address : Option IpAddr
  set_env : Bool
deriving DecidableEq, Repr

/-- Modelled from the spec: `crate::config::VAR_BRIDGE_IP` is not under
`src/`; spec section 6 names an environment variable holding the bridge
IP address. -/
def VAR_BRIDGE_IP : String := "HUECTL_BRIDGE_IP"

/-- Modelled from the spec: `crate::config::VAR_BRIDGE_USERNAME` is not
under `src/`; spec section 6 names an environment variable holding the
registered username. -/
def VAR_BRIDGE_USERNAME : String := "HUECTL_BRIDGE_USERNAME"

/-- `register` from the point where the target IP address is known
(src/arg/mod.rs, lines 130-146): submit the registration request with
the fixed client identifier, then either set the two environment
variables or print them as `KEY=VALUE` lines.  `registerResp ip` is the
bridge's answer to `register_user(ip, "huectl-rs", false)`; the `.ok`
payload is the generated username (`user.name`). -/
def register_cont (ip_address : IpAddr) (set_env : Bool)
    (registerResp : IpAddr → Except HuelibError String) : List Event :=
  Event.callRegisterUser ip_address "huectl-rs" false ::
  match registerResp ip_address with
  | .ok name =>
    if set_env then
      [Event.setEnvVar VAR_BRIDGE_IP ip_address,
       Event.setEnvVar VAR_BRIDGE_USERNAME name]
    else
      [Event.printLine (VAR_BRIDGE_IP ++ "=" ++ ip_address),
       Event.printLine (VAR_BRIDGE_USERNAME ++ "=" ++ name)]
  | .error e =>
    [Event.exitFatal ("Failed to register user on bridge with the IP address " ++ ip_address)
      (some e)]

/-- `register` (src/arg/mod.rs, lines 119-147).  When no IP address is
given, discovery runs and the source takes `v.pop()` from the returned
`Vec` — `Vec::pop` removes the LAST element, embedded here as
`List.getLast?`. -/
def register (arg : Register) (discoverResp : Except HuelibError (List IpAddr))
    (registerResp : IpAddr → Except HuelibError String) : List Event :=
  match arg.ip_address with
  | some v => register_cont v arg.set_env registerResp
  | none =>
    Event.callDiscover ::
    match discoverResp with
    | .ok v =>
      match v.getLast? with
      | some ip => register_cont ip arg.set_env registerResp
      | none => [Event.exitFatal "No bridges were found" none]
    | .error e => [Event.exitFatal "Failed to discover bridges" (some e)]

end arg

/-- The color assigned by the last-applied color option, following the
source's fixed application order — coordinates, then RGB, then hex — so
a hex color overrides an RGB color, which overrides coordinates.  This
is the derived characterization of the `color` field of
`Set.to_state_modifier`, proved equal to it below. -/
def lastAppliedColor (s : light.Set) : Option Color :=
  match s.color_hex with
  | some v => some v
  | none =>
    match s.color_rgb with
    | some v => some (Color.fromRgb v.1 v.2.1 v.2.2)
    | none =>
      match s.color_space_coordinates with
      | some v => some (Color.fromSpaceCoordinates v.1 v.2)
      | none => none

/-- The number of color options supplied among `--color-space-coordinates`,
`--color-rgb` and `--color-hex`. -/
def colorOptionsSupplied (s : light.Set) : Nat :=
  (if s.color_space_coordinates.isSome then 1 else 0) +
  (if s.color_rgb.isSome then 1 else 0) +
  (if s.color_hex.isSome then 1 else 0)

/-- True when the `light set` invocation supplies no modifying flag at
all: neither `--on` nor `--off`, and every optional flag absent. -/
def noModifyingFlags (s : light.Set) : Bool :=
  !s.on_flag && !s.off && s.brightness.isNone && s.hue.isNone &&
  s.saturation.isNone && s.color_temperature.isNone &&
  s.color_space_coordinates.isNone && s.color_rgb.isNone &&
  s.color_hex.isNone && s.alert.isNone && s.effect.isNone &&
  s.transition_time.isNone && s.name.isNone

/-- Whether a bridge response is a success. -/
def exceptIsOk {α : Type} : Except HuelibError α → Bool
  | .ok _ => true
  | .error _ => false

/-- A `light set` invocation with no modifying flag. -/
def exampleSetEmpty : light.Set :=
  { id := "1", on_flag := false, off := false, brightness := none, hue := none,
    saturation := none, color_temperature := none, color_space_coordinates := none,
    color_rgb := none, color_hex := none, alert := none, effect := none,
    transition_time := none, name := none }

/-- A `light set` invocation with both `--on` and `--off`. -/
def exampleSetOnOff : light.Set :=
  { exampleSetEmpty with on_flag := true, off := true }

/-- A `light set` invocation supplying two color options (`--color-rgb`
and `--color-hex`). -/
def exampleSetColors : light.Set :=
  { exampleSetEmpty with
    color_rgb := some (1, 2, 3)
    color_hex := some (Color.fromHex 0xff00aa) }

/-- A `light set` invocation with a state flag (`--on`) and an attribute
flag (`--name`). -/
def exampleSetOnName : light.Set :=
  { exampleSetEmpty with on_flag := true, name := some "lamp" }

/-- Folding an optional value with `some` is the identity. -/
theorem opt_elim_none_some {α : Type} (o : Option α) : o.elim none some = o := by
  cases o <;> rfl

/-- `apply_brightness` writes exactly the brightness field. -/
theorem apply_brightness_eq (m : StateModifier) (o : Option AdjustedValue) :
    light.apply_brightness m o = { m with brightness := o.elim m.brightness some } := by
  cases o <;> rfl

/-- `apply_hue` writes exactly the hue field. -/
theorem apply_hue_eq (m : StateModifier) (o : Option AdjustedValue) :
    light.apply_hue m o = { m with hue := o.elim m.hue some } := by
  cases o <;> rfl

/-- `apply_saturation` writes exactly the saturation field. -/
theorem apply_saturation_eq (m : StateModifier) (o : Option AdjustedValue) :
    light.apply_saturation m o = { m with saturation := o.elim m.saturation some } := by
  cases o <;> rfl

/-- `apply_color_space_coordinates` writes exactly the color field. -/
theorem apply_color_space_coordinates_eq (m : StateModifier) (o : Option (F32 × F32)) :
    light.apply_color_space_coordinates m o
      = { m with color := o.elim m.color (fun v => some (Color.fromSpaceCoordinates v.1 v.2)) } := by
  cases o <;> rfl

/-- `apply_color_rgb` writes exactly the color field. -/
theorem apply_color_rgb_eq (m : StateModifier) (o : Option (Nat × Nat × Nat)) :
    light.apply_color_rgb m o
      = { m with color := o.elim m.color (fun v => some (Color.fromRgb v.1 v.2.1 v.2.2)) } := by
  cases o <;> rfl

/-- `apply_color_hex` writes exactly the color field. -/
theorem apply_color_hex_eq (m : StateModifier) (o : Option Color) :
    light.apply_color_hex m o = { m with color := o.elim m.color some } := by
  cases o <;> rfl

/-- `apply_color_temperature` writes exactly the color-temperature field. -/
theorem apply_color_temperature_eq (m : StateModifier) (o : Option AdjustedValue) :
    light.apply_color_temperature m o
      = { m with color_temperature := o.elim m.color_temperature some } := by
  cases o <;> rfl

/-- `apply_alert` writes exactly the alert field. -/
theorem apply_alert_eq (m : StateModifier) (o : Option Alert) :
    light.apply_alert m o = { m with alert := o.elim m.alert some } := by
  cases o <;> rfl

/-- `apply_effect` writes exactly the effect field. -/
theorem apply_effect_eq (m : StateModifier) (o : Option Effect) :
    light.apply_effect m o = { m with effect := o.elim m.effect some } := by
  cases o <;> rfl

/-- `apply_transition_time` writes exactly the transition-time field. -/
theorem apply_transition_time_eq (m : StateModifier) (o : Option Nat) :
    light.apply_transition_time m o = { m with transition_time := o.elim m.transition_time some } := by
  cases o <;> rfl

/-- Characterization of `Set.to_state_modifier`: each modifier field is
exactly the corresponding supplied flag, the `on` field follows the
on-over-off precedence, and the color field is the last-applied color
option. -/
theorem to_state_modifier_eq (s : light.Set) :
    s.to_state_modifier =
      { on_value := if s.on_flag then some true else if s.off then some false else none
        brightness := s.brightness
        hue := s.hue
        saturation := s.saturation
        color := lastAppliedColor s
        color_temperature := s.color_temperature
        alert := s.alert
        effect := s.effect
        transition_time := s.transition_time } := by
  rcases s with ⟨i, onf, off, b, h, sa, ct, csc, rgb, hex, al, ef, tt, nm⟩
  cases onf <;> cases off <;> cases csc <;> cases rgb <;> cases hex <;>
    simp [light.Set.to_state_modifier, apply_brightness_eq, apply_hue_eq,
      apply_saturation_eq, apply_color_space_coordinates_eq, apply_color_rgb_eq,
      apply_color_hex_eq, apply_color_temperature_eq, apply_alert_eq, apply_effect_eq,
      apply_transition_time_eq, StateModifier.new, StateModifier.set_on,
      lastAppliedColor, opt_elim_none_some]

/-- Characterization of `Set.to_attribute_modifier`: the name field is
exactly the supplied `--name` flag. -/
theorem to_attribute_modifier_eq (s : light.Set) :
    s.to_attribute_modifier = { name := s.name } := by
  rcases s with ⟨i, onf, off, b, h, sa, ct, csc, rgb, hex, al, ef, tt, nm⟩
  cases nm <;> rfl

/-- C2: when a light `Set` argument carries both the `--on` and `--off`
flags, the built state modifier sets the `on` field to `true`: the
source's if/else-if resolves the conflict silently in favor of `--on`. -/
theorem set_on_off_precedence (s : light.Set) (h1 : s.on_flag = true) (h2 : s.off = true) :
    (s.to_state_modifier).on_value = some true := by
  rw [to_state_modifier_eq]
  simp [h1]

/-- Witness for C2 at a concrete `light set --on --off` invocation. -/
theorem set_on_off_precedence_witness :
    exampleSetOnOff.on_flag = true ∧ exampleSetOnOff.off = true ∧
      (exampleSetOnOff.to_state_modifier).on_value = some true :=
  ⟨rfl, rfl, set_on_off_precedence exampleSetOnOff rfl rfl⟩

/-- C4: every flag the user leaves unset leaves the corresponding
modifier field absent — the built state and attribute modifiers assign
only explicitly supplied fields, so the partial update cannot touch
unrelated resource state. -/
theorem set_unsupplied_fields_absent (s : light.Set) :
    (s.on_flag = false → s.off = false → (s.to_state_modifier).on_value = none) ∧
    (s.brightness = none → (s.to_state_modifier).brightness = none) ∧
    (s.hue = none → (s.to_state_modifier).hue = none) ∧
    (s.saturation = none → (s.to_state_modifier).saturation = none) ∧
    (s.color_space_coordinates = none → s.color_rgb = none → s.color_hex = none →
      (s.to_state_modifier).color = none) ∧
    (s.color_temperature = none → (s.to_state_modifier).color_temperature = none) ∧
    (s.alert = none → (s.to_state_modifier).alert = none) ∧
    (s.effect = none → (s.to_state_modifier).effect = none) ∧
    (s.transition_time = none → (s.to_state_modifier).transition_time = none) ∧
    (s.name = none → (s.to_attribute_modifier).name = none) := by
  rw [to_state_modifier_eq, to_attribute_modifier_eq]
  refine ⟨?_, ?_, ?_, ?_, ?_, ?_, ?_, ?_, ?_, ?_⟩ <;> intro h <;>
    simp_all [lastAppliedColor]

/-- Witness for C4 at the flagless `light set` invocation: every
modifier field is absent. -/
theorem set_unsupplied_fields_absent_witness :
    (exampleSetEmpty.to_state_modifier).on_value = none ∧
    (exampleSetEmpty.to_state_modifier).brightness = none ∧
    (exampleSetEmpty.to_state_modifier).hue = none ∧
    (exampleSetEmpty.to_state_modifier).saturation = none ∧
    (exampleSetEmpty.to_state_modifier).color = none ∧
    (exampleSetEmpty.to_state_modifier).color_temperature = none ∧
    (exampleSetEmpty.to_state_modifier).alert = none ∧
    (exampleSetEmpty.to_state_modifier).effect = none ∧
    (exampleSetEmpty.to_state_modifier).transition_time = none ∧
    (exampleSetEmpty.to_attribute_modifier).name = none :=
  ⟨(set_unsupplied_fields_absent exampleSetEmpty).1 rfl rfl,
   (set_unsupplied_fields_absent exampleSetEmpty).2.1 rfl,
   (set_unsupplied_fields_absent exampleSetEmpty).2.2.1 rfl,
   (set_unsupplied_fields_absent exampleSetEmpty).2.2.2.1 rfl,
   (set_unsupplied_fields_absent exampleSetEmpty).2.2.2.2.1 rfl rfl rfl,
   (set_unsupplied_fields_absent exampleSetEmpty).2.2.2.2.2.1 rfl,
   (set_unsupplied_fields_absent exampleSetEmpty).2.2.2.2.2.2.1 rfl,
   (set_unsupplied_fields_absent exampleSetEmpty).2.2.2.2.2.2.2.1 rfl,
   (set_unsupplied_fields_absent exampleSetEmpty).2.2.2.2.2.2.2.2.1 rfl,
   (set_unsupplied_fields_absent exampleSetEmpty).2.2.2.2.2.2.2.2.2 rfl⟩

/-- C10: when more than one color option is supplied, the color field of
the built state modifier is the color of the last-applied option in the
source's fixed application order — coordinates, then RGB, then hex — so
hex overrides RGB, which overrides coordinates. -/
theorem set_color_last_applied (s : light.Set) (h : 2 ≤ colorOptionsSupplied s) :
    (s.to_state_modifier).color = lastAppliedColor s ∧
    (∀ c, s.color_hex = some c → (s.to_state_modifier).color = some c) ∧
    (s.color_hex = none → ∀ v, s.color_rgb = some v →
      (s.to_state_modifier).color = some (Color.fromRgb v.1 v.2.1 v.2.2)) ∧
    (s.color_hex = none → s.color_rgb = none → ∀ v, s.color_space_coordinates = some v →
      (s.to_state_modifier).color = some (Color.fromSpaceCoordinates v.1 v.2)) := by
  rw [to_state_modifier_eq]
  refine ⟨rfl, ?_, ?_, ?_⟩
  · intro c hc
    simp [lastAppliedColor, hc]
  · intro hhex v hrgb
    simp [lastAppliedColor, hhex, hrgb]
  · intro hhex hrgb v hcsc
    simp [lastAppliedColor, hhex, hrgb, hcsc]

/-- Witness for C10 at a concrete invocation supplying both
`--color-rgb` and `--color-hex`: the hex color wins. -/
theorem set_color_last_applied_witness :
    2 ≤ colorOptionsSupplied exampleSetColors ∧
      (exampleSetColors.to_state_modifier).color = lastAppliedColor exampleSetColors ∧
      (exampleSetColors.to_state_modifier).color = some (Color.fromHex 0xff00aa) :=
  ⟨by decide,
   (set_color_last_applied exampleSetColors (by decide)).1,
   (set_color_last_applied exampleSetColors (by decide)).2.1 (Color.fromHex 0xff00aa) rfl⟩

/-- Printed response lines satisfy no event predicate that rejects
`printLine`. -/
theorem any_map_printLine (p : Event → Bool) (l : List Response)
    (hp : ∀ s, p (Event.printLine s) = false) :
    (l.map Event.printLine).any p = false := by
  induction l with
  | nil => rfl
  | cons a t ih => simp [hp, ih]

/-- The tail of `light::set` after the state step contains a
`set_light_attribute` call exactly when the attribute modifier is
non-empty. -/
theorem set_cont_any_attr (arg : light.Set) (responses : List Response)
    (attrResp : Except HuelibError (List Response)) :
    (light.set_cont arg responses attrResp).any Event.isSetLightAttributeCall
      = !(arg.to_attribute_modifier).is_empty := by
  simp only [light.set_cont]
  cases hA : (arg.to_attribute_modifier).is_empty with
  | true =>
    simp [hA, any_map_printLine Event.isSetLightAttributeCall responses (fun _ => rfl)]
  | false =>
    cases attrResp <;> simp [hA, Event.isSetLightAttributeCall]

/-- The tail of `light::set` after the state step never calls
`set_light_state`. -/
theorem set_cont_no_state (arg : light.Set) (responses : List Response)
    (attrResp : Except HuelibError (List Response)) :
    (light.set_cont arg responses attrResp).any Event.isSetLightStateCall = false := by
  simp only [light.set_cont]
  cases hA : (arg.to_attribute_modifier).is_empty with
  | true =>
    simp [hA, any_map_printLine Event.isSetLightStateCall responses (fun _ => rfl)]
  | false =>
    cases attrResp <;>
      simp [hA, Event.isSetLightStateCall,
        any_map_printLine Event.isSetLightStateCall _ (fun _ => rfl)]

/-- With an empty attribute modifier and no accumulated responses, the
tail of `light::set` performs no network call. -/
theorem set_cont_empty_no_network (arg : light.Set)
    (attrResp : Except HuelibError (List Response))
    (hA : (arg.to_attribute_modifier).is_empty = true) :
    (light.set_cont arg [] attrResp).any Event.isNetworkCall = false := by
  simp [light.set_cont, hA]

/-- A flagless `light set` builds two empty modifiers. -/
theorem noFlags_empty (s : light.Set) (h : noModifyingFlags s = true) :
    (s.to_state_modifier).is_empty = true ∧ (s.to_attribute_modifier).is_empty = true := by
  rw [to_state_modifier_eq, to_attribute_modifier_eq]
  simp only [noModifyingFlags, Bool.and_eq_true, Bool.not_eq_true',
    Option.isNone_iff_eq_none] at h
  simp_all [StateModifier.is_empty, AttributeModifier.is_empty, lastAppliedColor]

/-- C3 (amended): `light::set` calls `set_light_state` exactly when the
state modifier is non-empty; it calls `set_light_attribute` exactly when
the attribute modifier is non-empty, provided the state call (if made)
did not fail — on a state-call error the process exits before the
attribute call; a `set` with zero modifying flags performs zero network
calls. -/
theorem set_calls_match_modifiers (arg : light.Set)
    (stateResp attrResp : Except HuelibError (List Response)) :
    ((light.set arg stateResp attrResp).any Event.isSetLightStateCall
        = !(arg.to_state_modifier).is_empty) ∧
    ((arg.to_state_modifier).is_empty = true ∨ exceptIsOk stateResp = true →
      (light.set arg stateResp attrResp).any Event.isSetLightAttributeCall
        = !(arg.to_attribute_modifier).is_empty) ∧
    (noModifyingFlags arg = true →
      (light.set arg stateResp attrResp).any Event.isNetworkCall = false) := by
  simp only [light.set]
  cases hS : (arg.to_state_modifier).is_empty with
  | true =>
    refine ⟨set_cont_no_state arg [] attrResp, fun _ => set_cont_any_attr arg [] attrResp, ?_⟩
    intro hFlags
    exact set_cont_empty_no_network arg attrResp (noFlags_empty arg hFlags).2
  | false =>
    refine ⟨?_, ?_, ?_⟩
    · cases stateResp <;> simp [Event.isSetLightStateCall]
    · intro hOk
      rcases hOk with hOk | hOk
      · exact absurd hOk (by simp)
      · cases stateResp with
        | error e => exact absurd hOk (by simp [exceptIsOk])
        | ok v => simp [Event.isSetLightAttributeCall, set_cont_any_attr arg v attrResp]
    · intro hFlags
      exact absurd hS (by simp [(noFlags_empty arg hFlags).1])

/-- Witness for C3 (amended) at the flagless invocation with successful
responses: no state call, no attribute call, zero network calls. -/
theorem set_calls_match_modifiers_witness :
    ((light.set exampleSetEmpty (Except.ok []) (Except.ok [])).any Event.isSetLightStateCall
        = !(exampleSetEmpty.to_state_modifier).is_empty) ∧
    ((light.set exampleSetEmpty (Except.ok []) (Except.ok [])).any Event.isSetLightAttributeCall
        = !(exampleSetEmpty.to_attribute_modifier).is_empty) ∧
    ((light.set exampleSetEmpty (Except.ok []) (Except.ok [])).any Event.isNetworkCall
        = false) :=
  ⟨(set_calls_match_modifiers exampleSetEmpty (Except.ok []) (Except.ok [])).1,
   (set_calls_match_modifiers exampleSetEmpty (Except.ok []) (Except.ok [])).2.1 (Or.inr rfl),
   (set_calls_match_modifiers exampleSetEmpty (Except.ok []) (Except.ok [])).2.2 rfl⟩

/-- Counterexample to C3 as stated: with `--on` and `--name` supplied
and the bridge failing the state call, the attribute modifier is
non-empty yet no `set_light_attribute` call is made — the fatal exit on
the state call pre-empts it. -/
theorem set_attr_call_skipped_on_state_error :
    (exampleSetOnName.to_attribute_modifier).is_empty = false ∧
    ((light.set exampleSetOnName (Except.error "bridge unreachable") (Except.ok [])).any
        Event.isSetLightAttributeCall) = false :=
  ⟨rfl, rfl⟩

/-- Once the target IP address is known, `register` makes exactly one
registration call, to that address, with the fixed client identifier. -/
theorem register_cont_filter (ip : IpAddr) (se : Bool)
    (f : IpAddr → Except HuelibError String) :
    (arg.register_cont ip se f).filter Event.isRegisterCall
      = [Event.callRegisterUser ip "huectl-rs" false] := by
  simp only [arg.register_cont]
  cases f ip <;> cases se <;> rfl

/-- C1 (amended): `register` with no IP address runs bridge discovery
and registers on the LAST IP address of the discovered list (the source
takes `Vec::pop`), terminating fatally when discovery returns an empty
list. -/
theorem register_discovery_last (se : Bool) (l : List IpAddr) (ip : IpAddr)
    (f : IpAddr → Except HuelibError String) :
    ((arg.register ⟨none, se⟩ (Except.ok l) f).head? = some Event.callDiscover) ∧
    (l.getLast? = some ip →
      (arg.register ⟨none, se⟩ (Except.ok l) f).filter Event.isRegisterCall
        = [Event.callRegisterUser ip "huectl-rs" false]) ∧
    (l = [] → arg.register ⟨none, se⟩ (Except.ok l) f
        = [Event.callDiscover, Event.exitFatal "No bridges were found" none]) := by
  refine ⟨rfl, ?_, ?_⟩
  · intro h
    simp [arg.register, h, Event.isRegisterCall, register_cont_filter]
  · intro h
    subst h
    rfl

/-- Witness for C1 (amended): with one discovered bridge the program
registers on it; with zero discovered bridges it exits fatally. -/
theorem register_discovery_last_witness :
    ((arg.register ⟨none, false⟩ (Except.ok ["192.168.0.3"])
        (fun _ => Except.ok "user")).head? = some Event.callDiscover) ∧
    ((arg.register ⟨none, false⟩ (Except.ok ["192.168.0.3"])
        (fun _ => Except.ok "user")).filter Event.isRegisterCall
        = [Event.callRegisterUser "192.168.0.3" "huectl-rs" false]) ∧
    (arg.register ⟨none, false⟩ (Except.ok []) (fun _ => Except.ok "user")
        = [Event.callDiscover, Event.exitFatal "No bridges were found" none]) :=
  ⟨(register_discovery_last false ["192.168.0.3"] "192.168.0.3" (fun _ => Except.ok "user")).1,
   (register_discovery_last false ["192.168.0.3"] "192.168.0.3"
      (fun _ => Except.ok "user")).2.1 rfl,
   (register_discovery_last false [] "192.168.0.3" (fun _ => Except.ok "user")).2.2 rfl⟩

/-- Counterexample to C1 as stated: with two discovered bridges the
program does NOT register on the first discovered IP address — it
registers on the second (last) one. -/
theorem register_first_ip_counterexample :
    ((arg.register ⟨none, false⟩ (Except.ok ["10.0.0.1", "10.0.0.2"])
        (fun _ => Except.ok "user")).any (Event.isRegisterCallTo "10.0.0.1") = false) ∧
    ((arg.register ⟨none, false⟩ (Except.ok ["10.0.0.1", "10.0.0.2"])
        (fun _ => Except.ok "user")).any (Event.isRegisterCallTo "10.0.0.2") = true) :=
  ⟨rfl, rfl⟩

/-- C6: `register` with no IP address and zero discovered bridges exits
fatally (non-zero status) as its last step, makes no registration call,
and mutates no environment variable. -/
theorem register_no_bridges_no_mutation (se : Bool) (f : IpAddr → Except HuelibError String) :
    (arg.register ⟨none, se⟩ (Except.ok []) f
        = [Event.callDiscover, Event.exitFatal "No bridges were found" none]) ∧
    ((arg.register ⟨none, se⟩ (Except.ok []) f).any Event.isRegisterCall = false) ∧
    ((arg.register ⟨none, se⟩ (Except.ok []) f).any Event.isSetEnvVar = false) ∧
    ((arg.register ⟨none, se⟩ (Except.ok []) f).getLast?
        = some (Event.exitFatal "No bridges were found" none)) :=
  ⟨rfl, rfl, rfl, rfl⟩

/-- C7: `light search --get` performs exactly the read-only
`get_new_lights` call and plain `light search` performs exactly the
mutating `search_new_lights` call; no invocation performs both. -/
theorem search_no_cross_invocation (a : light.Search) (getResp : Except HuelibError Scan)
    (searchResp : Except HuelibError Unit) :
    ((light.search a getResp searchResp).filter Event.isNetworkCall
        = if a.get then [Event.callGetNewLights] else [Event.callSearchNewLights]) ∧
    ((light.search a getResp searchResp).any Event.isGetNewLightsCall = a.get) ∧
    ((light.search a getResp searchResp).any Event.isSearchNewLightsCall = !a.get) := by
  rcases a with ⟨g⟩
  cases g <;> cases getResp <;> cases searchResp <;> exact ⟨rfl, rfl, rfl⟩

/-- C8: `discover` prints one line per discovered bridge IP address in
order; a discovery-service error is fatal; zero results print nothing
and do not fail. -/
theorem discover_prints_each (l : List IpAddr) (e : HuelibError) :
    (arg.discover (Except.ok l) = Event.callDiscover :: l.map Event.printLine) ∧
    ((arg.discover (Except.ok l)).any Event.isExitFatal = false) ∧
    (arg.discover (Except.error e)
        = [Event.callDiscover, Event.exitFatal "Failed to discover bridges" (some e)]) ∧
    (arg.discover (Except.ok []) = [Event.callDiscover]) := by
  refine ⟨rfl, ?_, rfl, rfl⟩
  simp [arg.discover, Event.isExitFatal,
    any_map_printLine Event.isExitFatal l (fun _ => rfl)]

/-- C9: `light get` with an id fetches exactly that one light, and with
the id omitted fetches all lights; the result is printed as
pretty-printed JSON. -/
theorem get_one_or_all (v : String) (l : Light) (ls : List Light)
    (one : Except HuelibError Light) (all : Except HuelibError (List Light)) :
    ((light.get ⟨some v⟩ one all).filter Event.isNetworkCall = [Event.callGetLight v]) ∧
    ((light.get ⟨none⟩ one all).filter Event.isNetworkCall = [Event.callGetAllLights]) ∧
    (light.get ⟨some v⟩ (Except.ok l) all
        = [Event.callGetLight v, Event.printPrettyJsonLight (OutputLight.ofLight l)]) ∧
    (light.get ⟨none⟩ one (Except.ok ls)
        = [Event.callGetAllLights, Event.printPrettyJsonLights (ls.map OutputLight.ofLight)]) := by
  refine ⟨?_, ?_, rfl, rfl⟩
  · cases one <;> rfl
  · cases all <;> rfl

/-- C5: a bridge error during `config set` or `config get` is reported
through the non-fatal print helper and never through the fatal-exit
helper, while a light command (`delete`) reports bridge errors through
the fatal-exit helper and never through the non-fatal one. -/
theorem config_error_nonfatal (e : HuelibError) (json : Bool) (d : light.Delete) :
    ((config.set (Except.error e)).any Event.isPrintError = true) ∧
    ((config.set (Except.error e)).any Event.isExitFatal = false) ∧
    ((config.get json (Except.error e)).any Event.isPrintError = true) ∧
    ((config.get json (Except.error e)).any Event.isExitFatal = false) ∧
    ((light.delete d (Except.error e)).any Event.isExitFatal = true) ∧
    ((light.delete d (Except.error e)).any Event.isPrintError = false) := by
  rcases d with ⟨i⟩
  exact ⟨rfl, rfl, rfl, rfl, rfl, rfl⟩
